import Mathlib

/-!
Shallow embedding of the lock-monitor strike system
(src/app/services/strike.py, src/app/main.py, src/app/models/database.py).

Timestamps are modelled as integers (seconds since the epoch, UTC);
`timedelta(hours=h)` becomes `h * 3600` and `timedelta(days=d)` becomes
`d * 86400`.  The SQLite `users` table becomes a list of `User` records;
`card_uid` is a unique key (the column carries a UNIQUE constraint), so
row lookup is `List.find?` and a row update rewrites the first match.
-/

abbrev Time := Int

/-- Row of the `users` table (models/database.py, class User).  The surrogate
`id` column is omitted: nothing in the code reads it. -/
structure User where
  card_uid : String
  strike_1_date : Option Time
  strike_2_date : Option Time
  counter : Nat
  last_violation_date : Option Time
  created_at : Time
  updated_at : Time
deriving DecidableEq, Repr

/-- Classified escalation outcome: the possible `strike_type` strings of the
dict built by `_determine_and_apply_strike`, plus `no_action`, which
`_process_violation` tests for (main.py line 119) even though the strike
service never emits it. -/
inductive StrikeType where
  | strike_1
  | strike_2
  | strike_3
  | counter
  | no_action
deriving DecidableEq, Repr

/-- The `strike_info` dict returned by `_determine_and_apply_strike`. -/
structure StrikeInfo where
  violation_date : Time
  location : String
  lock_id : String
  counter : Nat
  strike_type : StrikeType
deriving DecidableEq, Repr

/-- A violation dict as built by `_check_for_violations` (main.py 94-99). -/
structure Violation where
  location : String
  lock_id : String
  card_uid : String
  locked_at : Time
deriving DecidableEq, Repr

/-- Fresh zero-valued row created by `_get_or_create_user` (strike.py 49-57). -/
def newUser (card_uid : String) (now : Time) : User :=
  { card_uid := card_uid
    strike_1_date := none
    strike_2_date := none
    counter := 0
    last_violation_date := none
    created_at := now
    updated_at := now }

/-- StrikeService._determine_and_apply_strike (strike.py 66-107): the
three-state escalation step.  Returns the mutated row and the strike info. -/
def determineAndApplyStrike (user : User) (v : Violation) (now : Time) :
    User × StrikeInfo :=
  let has_strike_1 := user.strike_1_date.isSome
  let has_strike_2 := user.strike_2_date.isSome
  let current_counter := user.counter
  if !has_strike_1 then
    ({ user with strike_1_date := some now },
     { violation_date := now, location := v.location, lock_id := v.lock_id
       counter := current_counter, strike_type := .strike_1 })
  else if !has_strike_2 then
    ({ user with strike_2_date := some now },
     { violation_date := now, location := v.location, lock_id := v.lock_id
       counter := current_counter, strike_type := .strike_2 })
  else
    ({ user with strike_1_date := none, strike_2_date := none
                 counter := current_counter + 1 },
     { violation_date := now, location := v.location, lock_id := v.lock_id
       counter := current_counter + 1
       strike_type := if current_counter = 0 then .strike_3 else .counter })

/-- Record-level effect of one StrikeService.process_strike transaction
(strike.py 17-24): the escalation step followed by the unconditional
`last_violation_date` / `updated_at` touch. -/
def applyStrike (user : User) (v : Violation) (now : Time) :
    User × StrikeInfo :=
  let r := determineAndApplyStrike user v now
  ({ r.1 with last_violation_date := some now, updated_at := now }, r.2)

/-- Row lookup by the unique `card_uid` key:
`session.query(User).filter(User.card_uid == card_uid).first()`. -/
def findUser (ledger : List User) (card_uid : String) : Option User :=
  ledger.find? (fun u => u.card_uid = card_uid)

/-- StrikeService._get_or_create_user (strike.py 39-60) at record level. -/
def getOrCreateUser (ledger : List User) (card_uid : String) (now : Time) :
    User :=
  (findUser ledger card_uid).getD (newUser card_uid now)

/-- Commit of a mutated (or freshly added) row keyed by `card_uid`. -/
def putUser (ledger : List User) (u : User) : List User :=
  if (findUser ledger u.card_uid).isSome then
    ledger.map (fun w => if w.card_uid = u.card_uid then u else w)
  else ledger ++ [u]

/-- StrikeService.process_strike (strike.py 11-37): one atomic transaction.
`commitFails = true` models a persistence failure at `session.commit()`:
the session rolls back, the record is left unchanged, and the exception is
re-raised to the caller (`Except.error`). -/
def process_strike (ledger : List User) (card_uid : String) (v : Violation)
    (now : Time) (commitFails : Bool) :
    Except String (List User × StrikeInfo) :=
  let user := getOrCreateUser ledger card_uid now
  let r := applyStrike user v now
  if commitFails then .error "persistence failure"
  else .ok (putUser ledger r.1, r.2)

/-- A Python datetime value: an instant (seconds) together with whether it
carries tzinfo.  The code writes timezone-aware UTC datetimes, but the
DateTime columns of models/database.py are offset-free, so the SQLite
round trip hands them back tz-naive — main.py 168-171 has to re-attach
tzinfo to values read from the database before comparing them. -/
structure PyDateTime where
  seconds : Time
  aware : Bool
deriving DecidableEq, Repr

/-- Python comparison `a >= b` on datetimes: comparing an offset-naive
value with an offset-aware one raises TypeError. -/
def pyGe (a b : PyDateTime) : Except String Bool :=
  if a.aware = b.aware then .ok (decide (b.seconds ≤ a.seconds))
  else .error "TypeError: cannot compare offset-naive and offset-aware datetimes"

/-- The part of a `users` row that the cooldown path reads, as materialized
by a fresh session: the stored last violation date with its (lost) tzinfo. -/
structure StoredUser where
  card_uid : String
  last_violation_date : Option PyDateTime
deriving DecidableEq, Repr

/-- What a committed row looks like when a fresh session reads it back:
each DateTime column keeps its clock reading but loses its tzinfo. -/
def readBack (u : User) : StoredUser :=
  { card_uid := u.card_uid
    last_violation_date := u.last_violation_date.map
      (fun t => { seconds := t, aware := false }) }

/-- StrikeService.is_user_in_cooldown (strike.py 139-164).  The argument is
the outcome of the ledger read: `Except.error` models any exception raised
inside the `try` block (e.g. a failed session/query), which the function
catches and converts to `False`.  The comparison at line 152 pits the
row's read-back `last_violation_date` against the tz-aware
`cooldown_cutoff`; if it raises (TypeError for a naive value), the same
blanket except at line 162 converts that to `False` as well. -/
def is_user_in_cooldown (readResult : Except String (Option StoredUser))
    (now : Time) (cooldownHours : Int) : Bool :=
  match readResult with
  | .error _ => false
  | .ok none => false
  | .ok (some user) =>
    match user.last_violation_date with
    | none => false
    | some last =>
      let cooldown_cutoff : PyDateTime :=
        { seconds := now - cooldownHours * 3600, aware := true }
      match pyGe last cooldown_cutoff with
      | .ok in_cooldown => in_cooldown
      | .error _ => false

/-- Cooldown predicate over a live ledger, as used by the detector: each
call opens a fresh session and queries the current table, so the row
arrives through the tz-dropping round trip. -/
def ledgerCooldown (ledger : List User) (now : Time) (cooldownHours : Int)
    (card_uid : String) : Bool :=
  is_user_in_cooldown (.ok ((findUser ledger card_uid).map readBack))
    now cooldownHours

/-- Raw `locked_at` value of a lock snapshot: absent/falsy, present but
unparsable (raises ValueError/TypeError, caught at main.py 101-103), or
parsed and normalized to UTC. -/
inductive RawTimestamp where
  | missing
  | unparsable
  | parsed (t : Time)
deriving DecidableEq, Repr

/-- One lock snapshot dict as consumed by `_check_for_violations`. -/
structure Lock where
  lock_id : String
  is_locked : Bool
  locked_by_uid : Option String
  locked_at : RawTimestamp
deriving DecidableEq, Repr

/-- Python truthiness test `not lock.get('locked_by_uid')`: the key is
missing, None, or the empty string. -/
def uidMissing : Option String → Bool
  | none => true
  | some s => s.isEmpty

/-- Body of the inner loop of `_check_for_violations` (main.py 68-103) for a
single snapshot: `none` means `continue` (no violation emitted). -/
def checkLock (inCooldown : String → Bool) (cutoff_time : Time)
    (unit_id : String) (lock : Lock) : Option Violation :=
  if !lock.is_locked || uidMissing lock.locked_by_uid then none
  else
    match lock.locked_at with
    | .missing => none
    | .unparsable => none
    | .parsed locked_at =>
      if locked_at < cutoff_time then
        if inCooldown (lock.locked_by_uid.getD "") then none
        else some { location := unit_id, lock_id := lock.lock_id
                    card_uid := lock.locked_by_uid.getD ""
                    locked_at := locked_at }
      else none

/-- LockMonitorApp._check_for_violations (main.py 63-105).  `lock_data` is
the unit-id keyed mapping returned by the lock API, in iteration order. -/
def check_for_violations (inCooldown : String → Bool) (now : Time)
    (violationHours : Int) (lock_data : List (String × List Lock)) :
    List Violation :=
  let cutoff_time := now - violationHours * 3600
  lock_data.flatMap
    (fun p => p.2.filterMap (checkLock inCooldown cutoff_time p.1))

/-- Newest strike date as computed by StrikeService.cleanup_old_strikes
(strike.py 248-256): note there is no branch for a record holding only
`strike_2_date`, so that case yields `none`. -/
def serviceNewest (s1 s2 : Option Time) : Option Time :=
  match s1, s2 with
  | some a, some b => some (max a b)
  | some a, none => some a
  | none, _ => none

/-- Query filter of strike.py 241-244: any strike date set. -/
def hasAnyStrike (u : User) : Bool :=
  u.strike_1_date.isSome || u.strike_2_date.isSome

/-- Loop body of StrikeService.cleanup_old_strikes (strike.py 247-266) for
one row: the row after the sweep and whether it was counted as cleaned.
Rows outside the query filter are not visited, hence unchanged. -/
def serviceCleanupStep (cutoff_date now : Time) (u : User) : User × Bool :=
  if hasAnyStrike u then
    match serviceNewest u.strike_1_date u.strike_2_date with
    | some newest =>
      if newest < cutoff_date then
        ({ u with strike_1_date := none, strike_2_date := none
                  updated_at := now }, true)
      else (u, false)
    | none => (u, false)
  else (u, false)

/-- StrikeService.cleanup_old_strikes (strike.py 232-281): the ledger-level
decay sweep, with `cutoff_date = now - STRIKE_CLEANUP_DAYS days`.  Returns
the swept ledger and the cleaned-row count. -/
def cleanup_old_strikes (now : Time) (cleanupDays : Int)
    (ledger : List User) : List User × Nat :=
  let cutoff_date := now - cleanupDays * 86400
  (ledger.map (fun u => (serviceCleanupStep cutoff_date now u).1),
   ledger.countP (fun u => (serviceCleanupStep cutoff_date now u).2))

/-- Newest strike date as computed by LockMonitorApp._cleanup_old_strikes
(main.py 173-179): this copy does handle a record holding only
`strike_2_date`. -/
def mainNewest (s1 s2 : Option Time) : Option Time :=
  match s1, s2 with
  | some a, some b => some (max a b)
  | some a, none => some a
  | none, some b => some b
  | none, none => none

/-- SQL filter of main.py 158-161 under NULL semantics: a NULL date never
compares below the cutoff. -/
def mainCleanupFilter (cutoff_date : Time) (u : User) : Bool :=
  (match u.strike_1_date with
   | some t => decide (t < cutoff_date)
   | none => false) ||
  (match u.strike_2_date with
   | some t => decide (t < cutoff_date)
   | none => false)

/-- Loop body of LockMonitorApp._cleanup_old_strikes (main.py 164-185) for
one row. -/
def mainCleanupStep (cutoff_date now : Time) (u : User) : User × Bool :=
  if mainCleanupFilter cutoff_date u then
    match mainNewest u.strike_1_date u.strike_2_date with
    | some newest =>
      if newest < cutoff_date then
        ({ u with strike_1_date := none, strike_2_date := none
                  updated_at := now }, true)
      else (u, false)
    | none => (u, false)
  else (u, false)

/-- LockMonitorApp._cleanup_old_strikes (main.py 152-197): the orchestrator's
own decay sweep, run at the end of each cycle and weekly. -/
def cleanup_old_strikes_main (now : Time) (cleanupDays : Int)
    (ledger : List User) : List User × Nat :=
  let cutoff_date := now - cleanupDays * 86400
  (ledger.map (fun u => (mainCleanupStep cutoff_date now u).1),
   ledger.countP (fun u => (mainCleanupStep cutoff_date now u).2))

/-- Rewrite the first row matching `p` by `f`, leaving the rest unchanged:
the effect of mutating the row returned by `.first()` under the UNIQUE
constraint on `card_uid`. -/
def updateFirst (p : User → Bool) (f : User → User) : List User → List User
  | [] => []
  | u :: rest =>
    if p u then f u :: rest else u :: updateFirst p f rest

/-- StrikeService.reset_user_strikes (strike.py 166-196): administrative
clear of both strike dates for one identity; `false` when no row exists. -/
def reset_user_strikes (now : Time) (card_uid : String)
    (ledger : List User) : List User × Bool :=
  match findUser ledger card_uid with
  | none => (ledger, false)
  | some _ =>
    (updateFirst (fun u => u.card_uid = card_uid)
      (fun u => { u with strike_1_date := none, strike_2_date := none
                         updated_at := now }) ledger, true)

/-- Outcomes of the external adapters for a given card UID, as the
orchestrator observes them.  All four adapters catch their own exceptions
and return a value (excel.get_user_info returns None on error,
email.send_strike_email / lock_api.delete_card_from_cloud /
excel.delete_user return booleans), so only the strike-service commit can
raise into `_process_violation`'s outer try. -/
structure Adapters where
  userInfoFound : String → Bool
  commitFails : String → Bool
  emailOk : String → Bool
  cloudDeleteOk : String → Bool
  excelDeleteOk : String → Bool

/-- Observable side effects of one `_process_violation` call. -/
structure ViolationEffects where
  userFound : Bool
  strikeApplied : Bool
  outcome : Option StrikeType
  emailDelivered : Bool
  strikeThreeHandled : Bool
  cloudDeleteAttempted : Bool
deriving DecidableEq, Repr

/-- Effects of a `_process_violation` call that performed no side effects. -/
def noEffects (userFound strikeApplied : Bool) (outcome : Option StrikeType) :
    ViolationEffects :=
  { userFound := userFound, strikeApplied := strikeApplied
    outcome := outcome, emailDelivered := false
    strikeThreeHandled := false, cloudDeleteAttempted := false }

/-- LockMonitorApp._process_violation (main.py 107-133) together with
_handle_strike_three (main.py 135-150).  The outer try catches a failing
strike transaction (ledger unchanged); _handle_strike_three is entered
exactly when `strike_type == 'strike_3'` and swallows its own failures. -/
def processViolation (ad : Adapters) (enableEmails enableCloudDeletion : Bool)
    (now : Time) (ledger : List User) (v : Violation) :
    List User × ViolationEffects :=
  if !ad.userInfoFound v.card_uid then
    (ledger, noEffects false false none)
  else
    match process_strike ledger v.card_uid v now (ad.commitFails v.card_uid) with
    | .error _ => (ledger, noEffects true false none)
    | .ok r =>
      let info := r.2
      if info.strike_type = .no_action then
        (r.1, noEffects true true (some info.strike_type))
      else
        let h3 := decide (info.strike_type = .strike_3)
        (r.1,
         { userFound := true, strikeApplied := true
           outcome := some info.strike_type
           emailDelivered := enableEmails && ad.emailOk v.card_uid
           strikeThreeHandled := h3
           cloudDeleteAttempted := h3 && enableCloudDeletion })

/-- The `for violation in violations` loop of check_locks_and_process
(main.py 53-54): each violation in order is handed to `_process_violation`,
which never raises. -/
def processAll (ad : Adapters) (enableEmails enableCloudDeletion : Bool)
    (now : Time) : List User → List Violation →
    List User × List ViolationEffects
  | ledger, [] => (ledger, [])
  | ledger, v :: vs =>
    let r := processViolation ad enableEmails enableCloudDeletion now ledger v
    let rest := processAll ad enableEmails enableCloudDeletion now r.1 vs
    (rest.1, r.2 :: rest.2)

/-- Result of one full detection cycle. -/
structure CycleResult where
  ledger : List User
  violationsProcessed : Nat
  effects : List ViolationEffects
  cleanupRan : Bool
deriving Repr

/-- LockMonitorApp.check_locks_and_process (main.py 42-61): an empty
snapshot fetch (`if not lock_data`) returns early; otherwise every detected
violation is processed and the cycle ends with the orchestrator's decay
sweep. -/
def check_locks_and_process (ad : Adapters)
    (enableEmails enableCloudDeletion : Bool) (now : Time)
    (violationHours cooldownHours cleanupDays : Int)
    (lock_data : List (String × List Lock)) (ledger : List User) :
    CycleResult :=
  if lock_data.isEmpty then
    { ledger := ledger, violationsProcessed := 0, effects := []
      cleanupRan := false }
  else
    let vs := check_for_violations (ledgerCooldown ledger now cooldownHours)
      now violationHours lock_data
    let r := processAll ad enableEmails enableCloudDeletion now ledger vs
    { ledger := (cleanup_old_strikes_main now cleanupDays r.1).1
      violationsProcessed := vs.length, effects := r.2, cleanupRan := true }

/-- Sample concrete data reused by the witness theorems. -/
def goodLock : Lock :=
  { lock_id := "lockA", is_locked := true
    locked_by_uid := some "card1", locked_at := .parsed 0 }

/-- Lock batch holding one stale engaged lock in one unit. -/
def sampleLockData : List (String × List Lock) := [("unitA", [goodLock])]

/-- Concrete violation matching `goodLock` in `sampleLockData`. -/
def sampleViolation : Violation :=
  { location := "unitA", lock_id := "lockA", card_uid := "card1"
    locked_at := 0 }

/-- Row whose last violation happened at t = 172800 (48 h). -/
def cooldownUser : User :=
  { card_uid := "card1", strike_1_date := none, strike_2_date := none
    counter := 0, last_violation_date := some 172800
    created_at := 0, updated_at := 172800 }

/-- Repeat offender: both strike dates set and counter already 1, so the
next escalation yields the `counter` outcome. -/
def repeatOffender : User :=
  { card_uid := "card1", strike_1_date := some 0, strike_2_date := some 10
    counter := 1, last_violation_date := some 10
    created_at := 0, updated_at := 10 }

/-- Row holding only `strike_2_date`, engaged 31 days before t = 31 d. -/
def strike2OnlyUser : User :=
  { card_uid := "card9", strike_1_date := none, strike_2_date := some 0
    counter := 0, last_violation_date := none
    created_at := 0, updated_at := 0 }

/-- Adapters in which every external call succeeds. -/
def allOkAdapters : Adapters :=
  { userInfoFound := fun _ => true, commitFails := fun _ => false
    emailOk := fun _ => true, cloudDeleteOk := fun _ => true
    excelDeleteOk := fun _ => true }

/-- Adapters in which every strike-service commit raises a persistence
error. -/
def failingAdapters : Adapters :=
  { userInfoFound := fun _ => true, commitFails := fun _ => true
    emailOk := fun _ => true, cloudDeleteOk := fun _ => true
    excelDeleteOk := fun _ => true }

/-- Record after `n` successive escalations starting from `u`, escalation
`i` happening at time `ts i`. -/
def iterStrike (v : Violation) (ts : Nat → Time) (u : User) : Nat → User
  | 0 => u
  | n + 1 => (applyStrike (iterStrike v ts u n) v (ts n)).1

/-- Outcome of escalation number `n + 1` (0-based index `n`) in the same
sequence. -/
def iterOutcome (v : Violation) (ts : Nat → Time) (u : User) (n : Nat) :
    StrikeType :=
  (applyStrike (iterStrike v ts u n) v (ts n)).2.strike_type

/-- Projection of the fields that neither the decay sweep nor the reset is
allowed to modify: identity key, counter, last violation date, creation
date. -/
def frameFields (u : User) : String × Nat × Option Time × Time :=
  (u.card_uid, u.counter, u.last_violation_date, u.created_at)

/-- C1 counterexample: on a fresh record the fourth escalation sees a clean
record again (the third cleared both strike dates), so it yields strike_1
and leaves the counter at 1 — not the claimed `counter` outcome with
counter = 2. -/
theorem fourth_escalation_is_strike_1 :
    iterOutcome sampleViolation (fun n => n) (newUser "card1" 0) 3
      = .strike_1 ∧
    (iterStrike sampleViolation (fun n => n) (newUser "card1" 0) 4).counter
      = 1 ∧
    ¬ (iterOutcome sampleViolation (fun n => n) (newUser "card1" 0) 3
        = .counter) := by
  decide

/-- C1 amended: starting from a fresh record (no strike dates, counter 0),
successive escalations yield outcomes strike_1, strike_2, strike_3,
strike_1, strike_2, counter; after the third both strike dates are empty
and counter = 1; the fourth sees a clean record again, so `counter` with
counter = 2 arrives only with the sixth escalation; and in the two-strikes
state the outcome is strike_3 exactly when the counter was 0 before the
increment. -/
theorem escalation_strict_cycle (u0 w : User) (v : Violation)
    (ts : Nat → Time) (t : Time) (s1 s2 : Time)
    (h1 : u0.strike_1_date = none) (h2 : u0.strike_2_date = none)
    (h3 : u0.counter = 0)
    (hw1 : w.strike_1_date = some s1) (hw2 : w.strike_2_date = some s2) :
    iterOutcome v ts u0 0 = .strike_1 ∧
    iterOutcome v ts u0 1 = .strike_2 ∧
    iterOutcome v ts u0 2 = .strike_3 ∧
    (iterStrike v ts u0 3).strike_1_date = none ∧
    (iterStrike v ts u0 3).strike_2_date = none ∧
    (iterStrike v ts u0 3).counter = 1 ∧
    iterOutcome v ts u0 3 = .strike_1 ∧
    (iterStrike v ts u0 4).counter = 1 ∧
    iterOutcome v ts u0 4 = .strike_2 ∧
    iterOutcome v ts u0 5 = .counter ∧
    (iterStrike v ts u0 6).counter = 2 ∧
    ((applyStrike w v t).2.strike_type = .strike_3 ↔ w.counter = 0) := by
  refine ⟨?_, ?_, ?_, ?_, ?_, ?_, ?_, ?_, ?_, ?_, ?_, ?_⟩ <;>
    simp [iterOutcome, iterStrike, applyStrike, determineAndApplyStrike,
      h1, h2, h3, hw1, hw2]

/-- Witness for C1 (amended) at a concrete fresh record and a concrete
two-strikes record. -/
theorem escalation_strict_cycle_witness :
    iterOutcome sampleViolation (fun n => n) (newUser "card1" 0) 0
      = .strike_1 ∧
    iterOutcome sampleViolation (fun n => n) (newUser "card1" 0) 1
      = .strike_2 ∧
    iterOutcome sampleViolation (fun n => n) (newUser "card1" 0) 2
      = .strike_3 ∧
    (iterStrike sampleViolation (fun n => n)
      (newUser "card1" 0) 3).strike_1_date = none ∧
    (iterStrike sampleViolation (fun n => n)
      (newUser "card1" 0) 3).strike_2_date = none ∧
    (iterStrike sampleViolation (fun n => n)
      (newUser "card1" 0) 3).counter = 1 ∧
    iterOutcome sampleViolation (fun n => n) (newUser "card1" 0) 3
      = .strike_1 ∧
    (iterStrike sampleViolation (fun n => n)
      (newUser "card1" 0) 4).counter = 1 ∧
    iterOutcome sampleViolation (fun n => n) (newUser "card1" 0) 4
      = .strike_2 ∧
    iterOutcome sampleViolation (fun n => n) (newUser "card1" 0) 5
      = .counter ∧
    (iterStrike sampleViolation (fun n => n)
      (newUser "card1" 0) 6).counter = 2 ∧
    ((applyStrike repeatOffender sampleViolation 100).2.strike_type
       = .strike_3 ↔ repeatOffender.counter = 0) :=
  escalation_strict_cycle (newUser "card1" 0) repeatOffender sampleViolation
    (fun n => n) 100 0 10 rfl rfl rfl rfl rfl

/-- C4: the cooldown predicate never returns true in the program: every
row read back from the database carries a tz-naive last_violation_date,
the `>=` against the tz-aware cutoff at strike.py 152 raises TypeError,
and the blanket except at 162 converts it to False — also at a record
lying 1 h inside a 24 h window, where the claim demands true. -/
theorem cooldown_predicate_always_false (u : User) (e : String)
    (now : Time) (cooldownHours : Int) :
    is_user_in_cooldown (.ok (some (readBack u))) now cooldownHours
      = false ∧
    is_user_in_cooldown (.ok none) now cooldownHours = false ∧
    is_user_in_cooldown (.error e) now cooldownHours = false ∧
    (((86400 : Int) - 82800 < 24 * 3600) ∧
      is_user_in_cooldown
        (.ok (some (readBack { cooldownUser with
          last_violation_date := some 82800 }))) 86400 24 = false ∧
      pyGe { seconds := 82800, aware := false }
        { seconds := 86400 - 24 * 3600, aware := true }
        = .error
          "TypeError: cannot compare offset-naive and offset-aware datetimes")
    := by
  refine ⟨?_, rfl, rfl, by decide, by decide, rfl⟩
  rcases h : u.last_violation_date with _ | last <;>
    simp [is_user_in_cooldown, readBack, pyGe, h]

/-- C10: any internal error while evaluating the cooldown predicate is
caught and converted to `false`, so the detector behaves exactly as if no
identity were in cooldown: qualifying violations are surfaced. -/
theorem cooldown_error_returns_false (msg : String) (now : Time)
    (cooldownHours violationHours : Int)
    (lock_data : List (String × List Lock)) :
    is_user_in_cooldown (.error msg) now cooldownHours = false ∧
    check_for_violations
      (fun _ => is_user_in_cooldown (Except.error msg) now cooldownHours)
      now violationHours lock_data =
      check_for_violations (fun _ => false) now violationHours lock_data :=
  ⟨rfl, rfl⟩




/-- The service sweep's per-row action either leaves the row untouched and
uncounted, or clears both strike dates, bumps updated_at and counts it. -/
theorem serviceCleanupStep_spec (cutoff_date now : Time) (u : User) :
    serviceCleanupStep cutoff_date now u = (u, false) ∨
    serviceCleanupStep cutoff_date now u =
      ({ u with strike_1_date := none, strike_2_date := none
                updated_at := now }, true) := by
  unfold serviceCleanupStep
  by_cases hs : hasAnyStrike u
  · rcases hn : serviceNewest u.strike_1_date u.strike_2_date with _ | t
    · simp [hs, hn]
    · by_cases hlt : t < cutoff_date <;> simp [hs, hn, hlt]
  · simp [hs]

/-- The orchestrator sweep's per-row action either leaves the row untouched
and uncounted, or clears both strike dates, bumps updated_at and counts
it. -/
theorem mainCleanupStep_spec (cutoff_date now : Time) (u : User) :
    mainCleanupStep cutoff_date now u = (u, false) ∨
    mainCleanupStep cutoff_date now u =
      ({ u with strike_1_date := none, strike_2_date := none
                updated_at := now }, true) := by
  unfold mainCleanupStep
  by_cases hs : mainCleanupFilter cutoff_date u
  · rcases hn : mainNewest u.strike_1_date u.strike_2_date with _ | t
    · simp [hs, hn]
    · by_cases hlt : t < cutoff_date <;> simp [hs, hn, hlt]
  · simp [hs]

/-- One pass of the service sweep leaves a row that the sweep can never
count again. -/
theorem serviceCleanupStep_idem (cutoff_date now : Time) (u : User) :
    (serviceCleanupStep cutoff_date now
      (serviceCleanupStep cutoff_date now u).1).2 = false := by
  rcases serviceCleanupStep_spec cutoff_date now u with h | h
  · rw [h]
    show (serviceCleanupStep cutoff_date now u).2 = false
    rw [h]
  · rw [h]
    show (serviceCleanupStep cutoff_date now
      { u with strike_1_date := none, strike_2_date := none
               updated_at := now }).2 = false
    simp [serviceCleanupStep, hasAnyStrike]

/-- C8: the decay sweep is idempotent: running it twice in immediate
succession cleans 0 records on the second invocation, for every ledger. -/
theorem decay_sweep_idempotent (now : Time) (cleanupDays : Int)
    (ledger : List User) :
    (cleanup_old_strikes now cleanupDays
      (cleanup_old_strikes now cleanupDays ledger).1).2 = 0 := by
  unfold cleanup_old_strikes
  simp [List.countP_map, Function.comp_def, serviceCleanupStep_idem,
    List.countP_eq_zero]

/-- The service sweep's per-row action preserves the frame fields. -/
theorem serviceCleanupStep_frame (cutoff_date now : Time) (u : User) :
    frameFields (serviceCleanupStep cutoff_date now u).1 = frameFields u := by
  rcases serviceCleanupStep_spec cutoff_date now u with h | h <;> simp [h, frameFields]

/-- The orchestrator sweep's per-row action preserves the frame fields. -/
theorem mainCleanupStep_frame (cutoff_date now : Time) (u : User) :
    frameFields (mainCleanupStep cutoff_date now u).1 = frameFields u := by
  rcases mainCleanupStep_spec cutoff_date now u with h | h <;> simp [h, frameFields]

/-- updateFirst with a frame-preserving row action preserves the frame
fields of every row. -/
theorem updateFirst_frame (p : User → Bool) (f : User → User)
    (hf : ∀ u, frameFields (f u) = frameFields u) (l : List User) :
    (updateFirst p f l).map frameFields = l.map frameFields := by
  induction l with
  | nil => rfl
  | cons u rest ih =>
    unfold updateFirst
    split_ifs <;> simp [hf, ih]

/-- C9: neither decay sweep (service or orchestrator copy) nor the
administrative strike reset changes any record's identity key, counter,
last violation date or creation date. -/
theorem decay_and_reset_frame (now : Time) (cleanupDays : Int)
    (card_uid : String) (ledger : List User) :
    ((cleanup_old_strikes now cleanupDays ledger).1.map frameFields
      = ledger.map frameFields) ∧
    ((cleanup_old_strikes_main now cleanupDays ledger).1.map frameFields
      = ledger.map frameFields) ∧
    ((reset_user_strikes now card_uid ledger).1.map frameFields
      = ledger.map frameFields) := by
  refine ⟨?_, ?_, ?_⟩
  · unfold cleanup_old_strikes
    simp [List.map_map, Function.comp_def, serviceCleanupStep_frame]
  · unfold cleanup_old_strikes_main
    simp [List.map_map, Function.comp_def, mainCleanupStep_frame]
  · unfold reset_user_strikes
    rcases findUser ledger card_uid with _ | u <;> simp
    exact updateFirst_frame (fun u => u.card_uid = card_uid)
      (fun u => { u with strike_1_date := none, strike_2_date := none
                         updated_at := now }) (fun w => rfl) ledger

/-- C3: the ledger-service decay sweep never cleans a record holding only
`strike_2_date` (strike.py computes no newest date in that case), although
its newest present strike date (day 0) is older than the 30-day window at
t = 31 d; the orchestrator's own sweep, which the cycle actually runs,
does clean exactly that record. -/
theorem service_cleanup_misses_strike2_only_record :
    cleanup_old_strikes (31 * 86400) 30 [strike2OnlyUser]
      = ([strike2OnlyUser], 0) ∧
    cleanup_old_strikes_main (31 * 86400) 30 [strike2OnlyUser]
      = ([{ strike2OnlyUser with
            strike_1_date := none, strike_2_date := none
            updated_at := 31 * 86400 }], 1) := by
  decide

/-- Inversion of the per-snapshot detector step: a produced violation can
only come from an engaged lock with a present holder token, a parsable
timestamp strictly older than the cutoff, and a holder not in cooldown. -/
theorem checkLock_eq_some (inCooldown : String → Bool) (cutoff_time : Time)
    (unit_id : String) (lock : Lock) (v : Violation)
    (h : checkLock inCooldown cutoff_time unit_id lock = some v) :
    lock.is_locked = true ∧ uidMissing lock.locked_by_uid = false ∧
    lock.locked_by_uid = some v.card_uid ∧
    lock.locked_at = .parsed v.locked_at ∧
    v.locked_at < cutoff_time ∧
    inCooldown v.card_uid = false ∧
    v.location = unit_id ∧ v.lock_id = lock.lock_id := by
  unfold checkLock at h
  split at h
  · exact absurd h (by simp)
  · rename_i hskip
    split at h
    · exact absurd h (by simp)
    · exact absurd h (by simp)
    · rename_i t hts
      split at h
      · rename_i hold
        split at h
        · exact absurd h (by simp)
        · rename_i hcd
          have hv := (Option.some.inj h).symm
          have hb : (!lock.is_locked || uidMissing lock.locked_by_uid)
              = false := by simpa using hskip
          have hl : lock.is_locked = true := by
            rcases Bool.or_eq_false_iff.mp hb with ⟨h1, _⟩
            simpa using h1
          have hu : uidMissing lock.locked_by_uid = false :=
            (Bool.or_eq_false_iff.mp hb).2
          subst hv
          refine ⟨hl, hu, ?_, hts, hold, ?_, rfl, rfl⟩
          · rcases hget : lock.locked_by_uid with _ | s
            · rw [hget] at hu
              exact absurd hu (by simp [uidMissing])
            · simp [hget]
          · simpa using hcd
      · exact absurd h (by simp)

/-- C5: every violation returned by the detector stems from a snapshot that
is engaged, carries a holder token, has a parsable engagement timestamp
strictly older than `now - violationThreshold`, and whose holder is not in
cooldown; snapshots failing any of these never produce a violation. -/
theorem detector_produces_only_qualifying (inCooldown : String → Bool)
    (now : Time) (violationHours : Int)
    (lock_data : List (String × List Lock)) (v : Violation)
    (hv : v ∈ check_for_violations inCooldown now violationHours lock_data) :
    ∃ unit_id locks lock, (unit_id, locks) ∈ lock_data ∧ lock ∈ locks ∧
      lock.is_locked = true ∧ uidMissing lock.locked_by_uid = false ∧
      lock.locked_by_uid = some v.card_uid ∧
      lock.locked_at = .parsed v.locked_at ∧
      v.locked_at < now - violationHours * 3600 ∧
      inCooldown v.card_uid = false := by
  unfold check_for_violations at hv
  rw [List.mem_flatMap] at hv
  obtain ⟨p, hp, hv⟩ := hv
  rw [List.mem_filterMap] at hv
  obtain ⟨lock, hl, hsome⟩ := hv
  obtain ⟨q1, q2, q3, q4, q5, q6, _, _⟩ :=
    checkLock_eq_some _ _ _ _ _ hsome
  exact ⟨p.1, p.2, lock, by simpa using hp, hl, q1, q2, q3, q4, q5, q6⟩

/-- Witness for C5 on a one-unit batch holding a single stale engaged
lock. -/
theorem detector_produces_only_qualifying_witness :
    ∃ unit_id locks lock, (unit_id, locks) ∈ sampleLockData ∧
      lock ∈ locks ∧
      lock.is_locked = true ∧ uidMissing lock.locked_by_uid = false ∧
      lock.locked_by_uid = some sampleViolation.card_uid ∧
      lock.locked_at = .parsed sampleViolation.locked_at ∧
      sampleViolation.locked_at < 7200 - 1 * 3600 ∧
      (fun _ : String => false) sampleViolation.card_uid = false :=
  detector_produces_only_qualifying (fun _ => false) 7200 1 sampleLockData
    sampleViolation (by decide)

/-- C6: cooldown suppression never fires in the program: in the claim's
own regression scenario (last violation at t = now, stored and read back
tz-naive; 24 h cooldown; engagement 48 h old; 1 h threshold) the cooldown
lookup hits the naive/aware TypeError, returns false, and detection
surfaces the violation — one violation instead of the claimed zero. -/
theorem cooldown_suppression_never_fires :
    ledgerCooldown [cooldownUser] 172800 24 "card1" = false ∧
    check_for_violations (ledgerCooldown [cooldownUser] 172800 24)
      172800 1 sampleLockData = [sampleViolation] ∧
    pyGe { seconds := 172800, aware := false }
      { seconds := 172800 - 24 * 3600, aware := true }
      = .error
        "TypeError: cannot compare offset-naive and offset-aware datetimes"
    := by
  refine ⟨by decide, by decide, rfl⟩

/-- One effects entry is recorded per violation in the batch: the loop
never stops early, whatever the adapters do. -/
theorem processAll_length (ad : Adapters) (eE eCD : Bool) (now : Time)
    (ledger : List User) (vs : List Violation) :
    (processAll ad eE eCD now ledger vs).2.length = vs.length := by
  induction vs generalizing ledger with
  | nil => rfl
  | cons v rest ih => simp [processAll, ih]

/-- The violation loop decomposes over list append. -/
theorem processAll_append (ad : Adapters) (eE eCD : Bool) (now : Time)
    (ledger : List User) (l1 l2 : List Violation) :
    processAll ad eE eCD now ledger (l1 ++ l2) =
      ((processAll ad eE eCD now
          (processAll ad eE eCD now ledger l1).1 l2).1,
        (processAll ad eE eCD now ledger l1).2 ++
          (processAll ad eE eCD now
            (processAll ad eE eCD now ledger l1).1 l2).2) := by
  induction l1 generalizing ledger with
  | nil => simp [processAll]
  | cons v rest ih => simp [processAll, ih]

/-- A persistence failure inside the strike transaction is caught in
`_process_violation`; the rollback leaves the ledger unchanged. -/
theorem processViolation_commitFails (ad : Adapters) (eE eCD : Bool)
    (now : Time) (ledger : List User) (v : Violation)
    (hfail : ad.commitFails v.card_uid = true) :
    (processViolation ad eE eCD now ledger v).1 = ledger := by
  unfold processViolation
  split_ifs
  · rfl
  · simp [process_strike, hfail]

/-- C7: a failing violation (here: a persistence failure, which rolls back
and leaves the ledger unchanged) does not abort the rest of the batch: the
final ledger is the one obtained by processing all other violations, and
every violation still gets an effects entry; an empty snapshot fetch — and
only that — ends the cycle before processing or cleanup. -/
theorem violation_failure_isolated (ad : Adapters)
    (eE eCD : Bool) (now : Time)
    (violationHours cooldownHours cleanupDays : Int)
    (ledger : List User) (v : Violation) (vs1 vs2 : List Violation)
    (lock_data : List (String × List Lock))
    (hfail : ad.commitFails v.card_uid = true)
    (hnonempty : lock_data ≠ []) :
    (processViolation ad eE eCD now ledger v).1 = ledger ∧
    (processAll ad eE eCD now ledger (vs1 ++ v :: vs2)).1 =
      (processAll ad eE eCD now
        (processAll ad eE eCD now ledger vs1).1 vs2).1 ∧
    (processAll ad eE eCD now ledger (vs1 ++ v :: vs2)).2.length =
      vs1.length + 1 + vs2.length ∧
    check_locks_and_process ad eE eCD now violationHours cooldownHours
      cleanupDays [] ledger =
      { ledger := ledger, violationsProcessed := 0, effects := []
        cleanupRan := false } ∧
    (check_locks_and_process ad eE eCD now violationHours cooldownHours
      cleanupDays lock_data ledger).cleanupRan = true := by
  refine ⟨processViolation_commitFails ad eE eCD now ledger v hfail,
    ?_, ?_, rfl, ?_⟩
  · rw [processAll_append]
    have hmid := processViolation_commitFails ad eE eCD now
      (processAll ad eE eCD now ledger vs1).1 v hfail
    simp [processAll, hmid]
  · rw [processAll_append]
    simp [processAll, processAll_length]
    omega
  · unfold check_locks_and_process
    rw [if_neg (by simpa using hnonempty)]

/-- Witness for C7: a batch of one unit with no locks, a failing commit for
every identity, and a batch of three violations around the failing one. -/
theorem violation_failure_isolated_witness :
    (processViolation failingAdapters true true 100 [] sampleViolation).1
      = [] ∧
    (processAll failingAdapters true true 100 []
        ([sampleViolation] ++ sampleViolation :: [sampleViolation])).1 =
      (processAll failingAdapters true true 100
        (processAll failingAdapters true true 100 [] [sampleViolation]).1
        [sampleViolation]).1 ∧
    (processAll failingAdapters true true 100 []
        ([sampleViolation] ++ sampleViolation :: [sampleViolation])).2.length
      = [sampleViolation].length + 1 + [sampleViolation].length ∧
    check_locks_and_process failingAdapters true true 100 1 24 30 [] [] =
      { ledger := [], violationsProcessed := 0, effects := []
        cleanupRan := false } ∧
    (check_locks_and_process failingAdapters true true 100 1 24 30
      sampleLockData []).cleanupRan = true :=
  violation_failure_isolated failingAdapters true true 100 1 24 30 []
    sampleViolation [sampleViolation] [sampleViolation] sampleLockData
    rfl (by decide)

/-- C2 counterexample: a repeat offender (both strike dates set, counter
already 1) yields the `counter` outcome, and the orchestrator neither
enters `_handle_strike_three` nor attempts the cloud card deletion —
revocation is not triggered on the `counter` outcome. -/
theorem revocation_not_triggered_on_counter_outcome :
    (processViolation allOkAdapters true true 100 [repeatOffender]
      sampleViolation).2.outcome = some .counter ∧
    (processViolation allOkAdapters true true 100 [repeatOffender]
      sampleViolation).2.strikeThreeHandled = false ∧
    (processViolation allOkAdapters true true 100 [repeatOffender]
      sampleViolation).2.cloudDeleteAttempted = false := by
  decide

/-- The orchestrator never reads the results of the revocation adapters:
changing them changes nothing in the processing of a violation. -/
theorem processViolation_ignores_revocation_oracles (ad : Adapters)
    (f g : String → Bool) (eE eCD : Bool) (now : Time) (ledger : List User)
    (v : Violation) :
    processViolation { ad with cloudDeleteOk := f, excelDeleteOk := g }
      eE eCD now ledger v = processViolation ad eE eCD now ledger v := by
  cases ad
  rfl

/-- Revocation handling is entered exactly on the strike_3 outcome. -/
theorem processViolation_strike3_iff (ad : Adapters) (eE : Bool)
    (now : Time) (ledger : List User) (v : Violation) :
    ((processViolation ad eE true now ledger v).2.strikeThreeHandled = true ↔
      (processViolation ad eE true now ledger v).2.outcome
        = some .strike_3) ∧
    ((processViolation ad eE true now ledger v).2.cloudDeleteAttempted = true
      ↔ (processViolation ad eE true now ledger v).2.outcome
        = some .strike_3) := by
  unfold processViolation
  split_ifs
  · simp [noEffects]
  · cases hps : process_strike ledger v.card_uid v now
      (ad.commitFails v.card_uid) with
    | error e => simp [noEffects]
    | ok r =>
      by_cases hna : r.2.strike_type = .no_action
      · simp [hna, noEffects]
      · simp [hna]

/-- C2 amended: for every processed violation the orchestrator triggers
credential revocation (cloud card deletion and directory removal) exactly
when the escalation outcome is strike_3 — on the `counter` outcome only the
notification is dispatched; revocation results never feed back into the
ledger, and every violation of the batch is processed regardless. -/
theorem revocation_exactly_on_strike3 (ad : Adapters)
    (f g : String → Bool) (enableEmails : Bool) (now : Time)
    (ledger : List User) (v : Violation) (vs : List Violation) :
    ((processViolation ad enableEmails true now ledger v).2.strikeThreeHandled
        = true ↔
      (processViolation ad enableEmails true now ledger v).2.outcome
        = some .strike_3) ∧
    ((processViolation ad enableEmails true now
        ledger v).2.cloudDeleteAttempted = true ↔
      (processViolation ad enableEmails true now ledger v).2.outcome
        = some .strike_3) ∧
    processViolation { ad with cloudDeleteOk := f, excelDeleteOk := g }
        enableEmails true now ledger v =
      processViolation ad enableEmails true now ledger v ∧
    (processAll { ad with cloudDeleteOk := f, excelDeleteOk := g }
        enableEmails true now ledger vs).2.length = vs.length :=
  ⟨(processViolation_strike3_iff ad enableEmails now ledger v).1,
   (processViolation_strike3_iff ad enableEmails now ledger v).2,
   processViolation_ignores_revocation_oracles ad f g enableEmails true now
     ledger v,
   processAll_length _ enableEmails true now ledger vs⟩
